import Mathlib

/-
Verification of the social-stories script engine
(`src/ss_script_handler.py`, `src/ss_script_parser.py`).

The embedding mirrors the Python 2 source line by line.  Python values whose
runtime type matters (ints stored where strings arrive, and vice versa) are
modelled by `PyVal`; Python exceptions are modelled by `PyErr`.  Every handler
operation returns a `StepResult`: the externally visible effects emitted so
far (ROS robot/tablet commands, log lines, debug prints), the handler state
as mutated up to the point of return or of the raised exception, and the
exception if one escaped.  Nondeterministic inputs (random draws, file
contents, the personalization manager's story, IOError outcomes of `open`)
are passed in explicitly as oracle arguments.

Python 2 semantics that the model reproduces faithfully:
  * `x in y` on strings is substring containment (`pyIn`);
  * comparing an `int` with a `str` never raises: every number sorts below
    every string, so `int >= str` is `False` (`py2GeIntVal`);
  * `datetime.timedelta(seconds=s)` with a `str` argument raises TypeError;
  * `range(0, s)` with a `str` bound raises TypeError;
  * reading an instance attribute that was never assigned raises
    AttributeError, which an `except NameError:` clause does NOT catch;
  * `random.randint(0, -1)` raises ValueError;
  * `list.index(x)` returns the index of the FIRST occurrence of `x`.
-/

namespace SSS

/-- A Python value of the two runtime types the handler actually stores in
its configuration attributes: `int` or `str`. -/
inductive PyVal where
  | int : Int → PyVal
  | str : String → PyVal
deriving DecidableEq

/-- The Python exceptions that can escape the modelled code. -/
inductive PyErr where
  | typeError
  | valueError
  | nameError
  | attributeError
  | ioError
  | stopIteration
  | indexError
deriving DecidableEq

/-- Does `n` occur at the head of `h`? (helper for substring containment) -/
def pyHere : List Char → List Char → Bool
  | [], _ => true
  | _ :: _, [] => false
  | a :: as, b :: bs => a == b && pyHere as bs

/-- Does `n` occur anywhere in the second list? -/
def pyScan (n : List Char) : List Char → Bool
  | [] => n.isEmpty
  | b :: bs => pyHere n (b :: bs) || pyScan n bs

/-- Python `needle in hay` on strings: substring containment. -/
def pyIn (needle hay : String) : Bool :=
  pyScan needle.toList hay.toList

/-- Helper for `pySplit`: split a character list at every separator,
`acc` holding the current field reversed. -/
def pySplitAux (sep : Char) : List Char → List Char → List (List Char)
  | [], acc => [acc.reverse]
  | c :: cs, acc =>
    if c = sep then acc.reverse :: pySplitAux sep cs []
    else pySplitAux sep cs (c :: acc)

/-- Python `line.split("\t")` with an explicit one-character separator:
every separator occurrence delimits a field, and the result is never empty
(the empty string splits to `[""]`). -/
def pySplit (s : String) (sep : Char) : List String :=
  (pySplitAux sep s.toList []).map fun l => String.mk l

/-- CPython 2 `>=` with an `int` on the left.  Mixed-type comparisons do not
raise in Python 2: every number compares below every string, so
`int >= str` is always `False`. -/
def py2GeIntVal (a : Int) : PyVal → Bool
  | .int b => a ≥ b
  | .str _ => false

/-- `pool[random.randint(0, len(pool)-1)]`: ValueError on an empty pool
(randint with an empty range), otherwise the entry at the oracle draw `r`
(every entry is reachable as `r` ranges over the naturals). -/
def poolPick (l : List String) (r : Nat) : Except PyErr String :=
  if l.isEmpty then .error .valueError
  else .ok (l.getD (r % l.length) "")

/-- Python list indexing with an explicitly computed index: IndexError when
the index is out of range. -/
def pyIndex (l : List String) (i : Nat) : Except PyErr String :=
  if i < l.length then .ok (l.getD i "") else .error .indexError

/-- The `(scriptName, scenes, inOrder, numAnswers)` tuple returned by
`ss_personalization_manager.get_next_story()` (an external collaborator). -/
structure StoryInfo where
  script_name : String
  scenes : List String
  in_order : Bool
  num_answers : Nat
deriving DecidableEq

/-- The instance attributes of `ss_script_handler` that the claims touch.
`Option` marks attributes that may not have been assigned yet: reading a
`none` field models Python raising AttributeError.  `elapsed` stands for
`datetime.datetime.now() - self.start_time` (seconds) at this step, and
`max_game_time` for the seconds of the stored timedelta.  `story` is the
stray attribute that `wait_for_response` assigns at line 409 (distinct from
`doing_story`). -/
structure HandlerState where
  stories_told : Int
  doing_story : Bool
  repeating : Bool
  story : Option Bool
  repetitions : Int
  max_repetitions : Option PyVal
  max_stories : Option PyVal
  max_incorrect_responses : Option PyVal
  max_game_time : Option Int
  elapsed : Int
  story_script : Option String
  correct_responses : Option (List String)
  incorrect_responses : Option (List String)
  yes_responses : Option (List String)
  no_responses : Option (List String)
  answer_feedback : Option (List String)
  story_intros : Option (List String)
  story_closings : Option (List String)
  timeout_closings : Option (List String)
  max_stories_reached : Option (List String)
deriving DecidableEq

/-- Payload of `send_opal_command("SETUP_STORY_SCENE", json.dumps(setup))`. -/
structure StorySetup where
  numScenes : Nat
  scenesInOrder : Bool
  numAnswers : Nat
deriving DecidableEq

/-- Payload of one `send_opal_command("LOAD_OBJECT", toload)` dictionary. -/
structure SceneObject where
  name : String
  tag : String
  slot : Nat
  correctSlot : Option Nat
  draggable : Bool
  isAnswerSlot : Bool
deriving DecidableEq

/-- Payload of an Opal (tablet) command. -/
inductive OpalPayload where
  | noProps
  | props : String → OpalPayload
  | setup : StorySetup → OpalPayload
  | object : SceneObject → OpalPayload
deriving DecidableEq

/-- One externally visible action of the handler. -/
inductive Effect where
  | robotCommand : String → String → Effect
  | robotCommandAndWait : String → String → String → Nat → Effect
  | opalCommand : String → OpalPayload → Effect
  | logMsg : String → Effect
  | printLine : String → Effect
deriving DecidableEq

/-- Is the effect an external robot/tablet command (as opposed to a log or a
debug print)? -/
def Effect.isExternal : Effect → Bool
  | .robotCommand _ _ => true
  | .robotCommandAndWait _ _ _ _ => true
  | .opalCommand _ _ => true
  | .logMsg _ => false
  | .printLine _ => false

/-- Result of running a piece of handler code: the effects emitted, the state
as mutated up to the return or the raise, and the escaped exception if any. -/
structure StepResult where
  effects : List Effect
  state : HandlerState
  err : Option PyErr
deriving DecidableEq

/-- Oracle inputs for one dispatched line: the random draw consumed by pool
selections, whether `load_script` raises IOError for a STORY or REPEAT
sub-script, the lines a pool file would provide, and the story returned by
the personalization manager. -/
structure Oracle where
  rand : Nat
  storyLoadFails : Bool
  repeatLoadFails : Bool
  fileLines : Option (List String)
  storyInfo : StoryInfo
deriving DecidableEq

/-- `ss_script_handler.read_list_from_file` (lines 307-319).  The body runs
`open(script, "r")`, but no name `script` is in scope (the parameter is
`filename`), so every call raises NameError before the file is touched; the
surrounding `except IOError` clause does not catch NameError.  `fileLines`
is the content the named file would have provided. -/
def read_list_from_file (filename : String) (fileLines : Option (List String)) :
    Except PyErr (List String) :=
  .error .nameError

/-- `load_next_story` abort branch (lines 422-440): log, clear `doing_story`,
try to play a max-stories-reached response (note the random index is drawn
over `len(self.no_responses)`, not over the pool actually indexed), then
clear `repeating`.  Reading an unset pool raises AttributeError, which the
`except NameError` clause does not catch. -/
def abortBranch (st : HandlerState) (r : Nat) : StepResult :=
  let lg := Effect.logMsg ("We were told to load another story, but we "
    ++ "already played the maximum number of stories! Skipping and ending now.")
  let st1 := { st with doing_story := false }
  match st1.max_stories_reached with
  | none => ⟨[lg], st1, some .attributeError⟩
  | some pool =>
    match st1.no_responses with
    | none => ⟨[lg], st1, some .attributeError⟩
    | some nr =>
      if nr.isEmpty then ⟨[lg], st1, some .valueError⟩
      else
        match pyIndex pool (r % nr.length) with
        | .error e => ⟨[lg], st1, some e⟩
        | .ok s =>
          ⟨[lg, .robotCommand "DO" s], { st1 with repeating := false }, none⟩

/-- The `toload` dictionary built for one scene (lines 455-462).
`scenes.index(scene)` is Python's first-occurrence index. -/
def sceneObject (scenes : List String) (in_order : Bool) (scene : String) :
    SceneObject :=
  { name := scene
    tag := "PlayObject"
    slot := scenes.indexOf scene + 1
    correctSlot := if in_order then none else some (scenes.indexOf scene + 1)
    draggable := if in_order then false else true
    isAnswerSlot := false }

/-- `load_next_story` success branch (lines 442-463): record the story script
name, emit the scene-setup command, then one LOAD_OBJECT command per scene. -/
def successBranch (st : HandlerState) (info : StoryInfo) : StepResult :=
  let st1 := { st with story_script := some info.script_name }
  let setup : StorySetup :=
    ⟨info.scenes.length, info.in_order, info.num_answers⟩
  ⟨Effect.opalCommand "SETUP_STORY_SCENE" (.setup setup)
      :: info.scenes.map (fun s =>
          Effect.opalCommand "LOAD_OBJECT"
            (.object (sceneObject info.scenes info.in_order s))),
    st1, none⟩

/-- `ss_script_handler.load_next_story` (lines 412-463).  The budget gate at
lines 420-421 evaluates `self.stories_told >= self.max_stories or
datetime.datetime.now() - self.start_time >= self.max_game_time`: reading an
unset attribute raises AttributeError; the int-vs-str comparison is the
Python 2 mixed comparison `py2GeIntVal`. -/
def load_next_story (st : HandlerState) (r : Nat) (info : StoryInfo) :
    StepResult :=
  match st.max_stories with
  | none => ⟨[], st, some .attributeError⟩
  | some ms =>
    if py2GeIntVal st.stories_told ms then abortBranch st r
    else
      match st.max_game_time with
      | none => ⟨[], st, some .attributeError⟩
      | some mgt =>
        if st.elapsed ≥ mgt then abortBranch st r
        else successBranch st info

/-- STORY line (lines 111-132): set `doing_story` (before the load is
attempted), then load `"../session_scripts/" + self.story_script`.  If
`story_script` was never assigned (only `load_next_story` assigns it), the
attribute read raises AttributeError, which neither `except IOError` nor
`except NameError` catches; on IOError the line is skipped and `doing_story`
is cleared again. -/
def storyBranch (st : HandlerState) (loadFails : Bool) : StepResult :=
  let st1 := { st with doing_story := true }
  match st1.story_script with
  | none => ⟨[.printLine "STORY"], st1, some .attributeError⟩
  | some _ =>
    if loadFails then
      ⟨[.printLine "STORY",
        .logMsg "Script parser could not open story script! Skipping STORY line."],
        { st1 with doing_story := false }, none⟩
    else ⟨[.printLine "STORY"], st1, none⟩

/-- ROBOT line (lines 137-155).  STORY_INTRO / STORY_CLOSING select a random
entry from the matching pool (reading an unset pool attribute raises
AttributeError: there is no try/except here); otherwise the command is
forwarded with its literal properties, or with `""` when it has none. -/
def robotBranch (st : HandlerState) (elements : List String) (r : Nat) :
    StepResult :=
  if pyIn "STORY_INTRO" (elements.getD 1 "") then
    match st.story_intros with
    | none => ⟨[.printLine "ROBOT"], st, some .attributeError⟩
    | some l =>
      match poolPick l r with
      | .error e => ⟨[.printLine "ROBOT"], st, some e⟩
      | .ok s => ⟨[.printLine "ROBOT", .robotCommand "DO" s], st, none⟩
  else if pyIn "STORY_CLOSING" (elements.getD 1 "") then
    match st.story_closings with
    | none => ⟨[.printLine "ROBOT"], st, some .attributeError⟩
    | some l =>
      match poolPick l r with
      | .error e => ⟨[.printLine "ROBOT"], st, some e⟩
      | .ok s => ⟨[.printLine "ROBOT", .robotCommand "DO" s], st, none⟩
  else if elements.length > 2 then
    ⟨[.printLine "ROBOT",
      .robotCommand (elements.getD 1 "") (elements.getD 2 "")], st, none⟩
  else
    ⟨[.printLine "ROBOT", .robotCommand (elements.getD 1 "") ""], st, none⟩

/-- OPAL line (lines 159-179).  `LOAD_ALL` calls the bare name
`read_list_from_file`, which is not defined at module level (it is a method),
so it raises NameError.  `LOAD_STORY` enters `load_next_story`. -/
def opalBranch (st : HandlerState) (elements : List String) (orc : Oracle) :
    StepResult :=
  if pyIn "LOAD_ALL" (elements.getD 1 "") && decide (3 ≤ elements.length) then
    ⟨[.printLine "OPAL"], st, some .nameError⟩
  else if pyIn "LOAD_STORY" (elements.getD 1 "") then
    let res := load_next_story st orc.rand orc.storyInfo
    ⟨.printLine "OPAL" :: res.effects, res.state, res.err⟩
  else if elements.length > 2 then
    ⟨[.printLine "OPAL",
      .opalCommand (elements.getD 1 "") (.props (elements.getD 2 ""))],
      st, none⟩
  else
    ⟨[.printLine "OPAL", .opalCommand (elements.getD 1 "") .noProps], st, none⟩

/-- The `try:` body of an ADD line (lines 189-216): the if/elif chain on the
pool name, in source order (note `"CORRECT_RESPONSES"` is a substring of
`"INCORRECT_RESPONSES"`, so the first branch also captures the latter; since
every branch calls `read_list_from_file`, which always raises NameError, the
distinction is unobservable).  The ANSWER_FEEDBACK branch assigns to
`self.answer-feedback`, which is a syntax error in the source; its right-hand
side would raise NameError first in any case, so it is modelled as the same
raise.  When no pool name matches, the body does nothing. -/
def addTryBody (st : HandlerState) (e1 e2 : String)
    (fileLines : Option (List String)) : Except PyErr HandlerState :=
  if pyIn "CORRECT_RESPONSES" e1 then
    (read_list_from_file e2 fileLines).map
      fun l => { st with correct_responses := some l }
  else if pyIn "INCORRECT_RESPONSES" e1 then
    (read_list_from_file e2 fileLines).map
      fun l => { st with incorrect_responses := some l }
  else if pyIn "YES_RESPONSES" e1 then
    (read_list_from_file e2 fileLines).map
      fun l => { st with yes_responses := some l }
  else if pyIn "NO_RESPONSES" e1 then
    (read_list_from_file e2 fileLines).map
      fun l => { st with no_responses := some l }
  else if pyIn "ANSWER_FEEDBACK" e1 then
    (read_list_from_file e2 fileLines).map fun _ => st
  else if pyIn "STORY_INTROS" e1 then
    (read_list_from_file e2 fileLines).map
      fun l => { st with story_intros := some l }
  else if pyIn "STORY_CLOSINGS" e1 then
    (read_list_from_file e2 fileLines).map
      fun l => { st with story_closings := some l }
  else if pyIn "TIMEOUT_CLOSINGS" e1 then
    (read_list_from_file e2 fileLines).map
      fun l => { st with timeout_closings := some l }
  else if pyIn "MAX_STORIES_REACHED" e1 then
    (read_list_from_file e2 fileLines).map
      fun l => { st with max_stories_reached := some l }
  else .ok st

/-- ADD line (lines 186-220): run the try body; `except IOError` logs and
continues, any other exception propagates, and on success the `else:` clause
logs the added pool name. -/
def addBranch (st : HandlerState) (elements : List String)
    (fileLines : Option (List String)) : StepResult :=
  match addTryBody st (elements.getD 1 "") (elements.getD 2 "") fileLines with
  | .error .ioError => ⟨[.logMsg "Failed to add responses!"], st, none⟩
  | .error e => ⟨[], st, some e⟩
  | .ok st1 => ⟨[.logMsg ("Added " ++ elements.getD 1 "")], st1, none⟩

/-- SET line (lines 224-234).  The stored values are the raw tab-separated
string fields: MAX_INCORRECT_RESPONSES and MAX_STORIES are stored as `str`,
and MAX_GAME_TIME runs `datetime.timedelta(seconds=elements[2])` on a `str`,
which raises TypeError, so `max_game_time` is never assigned. -/
def setBranch (st : HandlerState) (elements : List String) : StepResult :=
  if pyIn "MAX_INCORRECT_RESPONSES" (elements.getD 1 "") then
    ⟨[.logMsg ("Set MAX_INCORRECT_RESPONSES to " ++ elements.getD 2 "")],
      { st with max_incorrect_responses := some (.str (elements.getD 2 "")) },
      none⟩
  else if pyIn "MAX_GAME_TIME" (elements.getD 1 "") then
    ⟨[], st, some .typeError⟩
  else if pyIn "MAX_STORIES" (elements.getD 1 "") then
    ⟨[.logMsg ("Set MAX_STORIES to " ++ elements.getD 2 "")],
      { st with max_stories := some (.str (elements.getD 2 "")) }, none⟩
  else ⟨[], st, none⟩

/-- REPEAT line (lines 245-272).  `repeating` and `repetitions` are set
first; IOError on the repeat script clears `repeating` and skips the line.
For `countSource` containing MAX_STORIES: `try: self.max_repetitions =
self.max_stories` raises AttributeError when `max_stories` is unset (the
`except NameError` clause does not catch it); when it succeeds, the `else:`
clause of the try statement runs and OVERWRITES `max_repetitions` with
`elements[1]`, the literal countSource string.  For any other countSource no
branch assigns `max_repetitions` at all. -/
def repeatBranch (st : HandlerState) (elements : List String)
    (loadFails : Bool) : StepResult :=
  let st1 := { st with repeating := true, repetitions := 0 }
  if loadFails then
    ⟨[.logMsg "Script parser could not open script to repeat! Skipping REPEAT line."],
      { st1 with repeating := false }, none⟩
  else if pyIn "MAX_STORIES" (elements.getD 1 "") then
    match st1.max_stories with
    | none => ⟨[], st1, some .attributeError⟩
    | some _ =>
      ⟨[.logMsg ("Going to repeat " ++ elements.getD 2 "" ++ " "
          ++ elements.getD 1 "" ++ " times.")],
        { st1 with max_repetitions := some (.str (elements.getD 1 "")) },
        none⟩
  else ⟨[], st1, none⟩

/-- The if/elif dispatch chain of `iterate_once` over the tab-separated
fields of one line (lines 104-272).  Opcode recognition is Python substring
containment against the first field.  Lines with a single field are only
checked for STORY; WAIT lines call the bare (undefined) module-level name
`wait_for_response`, raising NameError; a line matching no branch falls off
the chain with no effect. -/
def handle_elements (st : HandlerState) (elements : List String)
    (orc : Oracle) : StepResult :=
  if elements.length < 1 then
    ⟨[.logMsg "Line had no elements! Going to next line..."], st, none⟩
  else if elements.length == 1 then
    if pyIn "STORY" (elements.getD 0 "") then storyBranch st orc.storyLoadFails
    else ⟨[], st, none⟩
  else if pyIn "ROBOT" (elements.getD 0 "") then
    robotBranch st elements orc.rand
  else if pyIn "OPAL" (elements.getD 0 "") then
    opalBranch st elements orc
  else if pyIn "ADD" (elements.getD 0 "") && decide (3 ≤ elements.length) then
    addBranch st elements orc.fileLines
  else if pyIn "SET" (elements.getD 0 "") && decide (3 ≤ elements.length) then
    setBranch st elements
  else if pyIn "WAIT" (elements.getD 0 "") && decide (3 ≤ elements.length) then
    ⟨[], st, some .nameError⟩
  else if pyIn "REPEAT" (elements.getD 0 "") && decide (3 ≤ elements.length) then
    repeatBranch st elements orc.repeatLoadFails
  else ⟨[], st, none⟩

/-- Does the dispatch chain of `iterate_once` recognize this field list?
Exactly the disjunction of the chain's guards in `handle_elements`. -/
def recognizedLine (elements : List String) : Bool :=
  if elements.length < 1 then false
  else if elements.length == 1 then pyIn "STORY" (elements.getD 0 "")
  else pyIn "ROBOT" (elements.getD 0 "") || pyIn "OPAL" (elements.getD 0 "")
    || (pyIn "ADD" (elements.getD 0 "") && decide (3 ≤ elements.length))
    || (pyIn "SET" (elements.getD 0 "") && decide (3 ≤ elements.length))
    || (pyIn "WAIT" (elements.getD 0 "") && decide (3 ≤ elements.length))
    || (pyIn "REPEAT" (elements.getD 0 "") && decide (3 ≤ elements.length))

/-- What the active parser's `next_line()` produced: a line, or the
StopIteration signalling end of script. -/
inductive LineRead where
  | line : String → LineRead
  | endOfScript : LineRead
deriving DecidableEq

/-- The three line sources; `iterate_once` reads from the innermost active
one (lines 87-94): story, else repeat, else main. -/
inductive Source where
  | story
  | repeatScript
  | main
deriving DecidableEq

/-- Which parser the next `iterate_once` call will read from (lines 87-94). -/
def activeSource (st : HandlerState) : Source :=
  if st.doing_story then .story
  else if st.repeating then .repeatScript
  else .main

/-- `ss_script_handler.iterate_once` (lines 79-304), given what the active
parser's `next_line()` produced.  On a line: print it, dispatch it; any
exception from the dispatch is caught by the bare `except:` at line 301,
logged and re-raised.  On StopIteration (end of the active script):
  * story active (lines 279-281): clear `doing_story`, increment
    `stories_told`, everything else untouched;
  * else repeating (lines 283-292): line 284 evaluates
    `"Finished repetition " + self.repetitions`, a str + int concatenation,
    which raises TypeError out of the handler before the counter is
    incremented (and the source never reopens the exhausted repeat script);
  * else (lines 294-297): log and re-raise StopIteration (session over). -/
def iterate_once (st : HandlerState) (read : LineRead) (orc : Oracle) :
    StepResult :=
  match read with
  | .line l =>
    let res := handle_elements st (pySplit l '\t') orc
    match res.err with
    | some e =>
      ⟨Effect.printLine ("LINE: " ++ l)
          :: res.effects ++ [.logMsg "Unexpected exception! Error:"],
        res.state, some e⟩
    | none =>
      ⟨Effect.printLine ("LINE: " ++ l) :: res.effects, res.state, none⟩
  | .endOfScript =>
    if st.doing_story then
      ⟨[], { st with doing_story := false,
                     stories_told := st.stories_told + 1 }, none⟩
    else if st.repeating then
      ⟨[], st, some .typeError⟩
    else
      ⟨[.logMsg "No more script lines to get!"], st, some .stopIteration⟩

/-- One iteration of the response loop in `wait_for_response` (lines
327-385).  `timeout` feeds `datetime.timedelta(seconds=timeout)`, which
raises TypeError on a `str`.  The branch guards use Python substring
containment, in source order.  Pool reads have a `try/except NameError`
around them in the source, but an unset pool attribute raises
AttributeError, which that clause does not catch, so the read propagates.
The returned Bool says whether the loop `break`s (a successful CORRECT/YES
response). -/
def waitAttempt (st : HandlerState) (response_to_get : String)
    (timeout : PyVal) (response : String) (r : Nat) :
    List Effect × Except PyErr Bool :=
  match timeout with
  | .str _ => ([.logMsg "Waiting for user response..."], .error .typeError)
  | .int _ =>
    let lw := Effect.logMsg "Waiting for user response..."
    if pyIn "CORRECT" response then
      match st.correct_responses with
      | none => ([lw], .error .attributeError)
      | some l =>
        match poolPick l r with
        | .error e => ([lw], .error e)
        | .ok s => ([lw, .robotCommand "DO" s], .ok true)
    else if pyIn "YES" response then
      match st.yes_responses with
      | none => ([lw], .error .attributeError)
      | some l =>
        match poolPick l r with
        | .error e => ([lw], .error e)
        | .ok s => ([lw, .robotCommand "DO" s], .ok true)
    else if pyIn "INCORRECT" response
        || (pyIn "TIMEOUT" response && pyIn "CORRECT" response_to_get) then
      match st.incorrect_responses with
      | none => ([lw], .error .attributeError)
      | some l =>
        match poolPick l r with
        | .error e => ([lw], .error e)
        | .ok s => ([lw, .robotCommand "DO" s], .ok false)
    else if pyIn "NO" response
        || (pyIn "TIMEOUT" response && pyIn "YES_NO" response_to_get) then
      match st.no_responses with
      | none => ([lw], .error .attributeError)
      | some l =>
        match poolPick l r with
        | .error e => ([lw], .error e)
        | .ok s => ([lw, .robotCommand "DO" s], .ok false)
    else ([lw], .ok false)

/-- The `for i in range(0, n)` loop of `wait_for_response`, with `resps i`
and `rands i` the classified response and the random draw of attempt `i`.
Returns the effects, and whether the loop exited through `break` (so that
the for-`else` clause is skipped). -/
def waitLoop (st : HandlerState) (response_to_get : String) (timeout : PyVal)
    (resps : Nat → String) (rands : Nat → Nat) :
    Nat → Nat → List Effect × Except PyErr Bool
  | 0, _ => ([], .ok false)
  | n + 1, i =>
    match waitAttempt st response_to_get timeout (resps i) (rands i) with
    | (effs, .error e) => (effs, .error e)
    | (effs, .ok true) => (effs, .ok true)
    | (effs, .ok false) =>
      let rest := waitLoop st response_to_get timeout resps rands n (i + 1)
      (effs ++ rest.1, rest.2)

/-- `ss_script_handler.wait_for_response` (lines 322-409).  The loop header
`for i in range(0, self.max_incorrect_responses)` raises AttributeError when
the attribute was never set and TypeError when it holds a `str` (which is
what a SET line stores).  If the loop completes without `break`, the
for-`else` (lines 389-409) runs: for a CORRECT kind, SHOW_CORRECT is sent,
the answer-feedback pool is read (AttributeError when unset, uncaught), and
HIDE_CORRECT follows; for a YES kind, line 408 clears `repeating` but line
409 assigns the stray attribute `self.story` instead of `self.doing_story`. -/
def wait_for_response (st : HandlerState) (response_to_get : String)
    (timeout : PyVal) (resps : Nat → String) (rands : Nat → Nat) :
    StepResult :=
  match st.max_incorrect_responses with
  | none => ⟨[], st, some .attributeError⟩
  | some (.str _) => ⟨[], st, some .typeError⟩
  | some (.int n) =>
    match waitLoop st response_to_get timeout resps rands n.toNat 0 with
    | (effs, .error e) => ⟨effs, st, some e⟩
    | (effs, .ok true) => ⟨effs, st, none⟩
    | (effs, .ok false) =>
      if pyIn "CORRECT" response_to_get then
        match st.answer_feedback with
        | none =>
          ⟨effs ++ [.opalCommand "SHOW_CORRECT" .noProps], st,
            some .attributeError⟩
        | some l =>
          match poolPick l (rands n.toNat) with
          | .error e =>
            ⟨effs ++ [.opalCommand "SHOW_CORRECT" .noProps], st, some e⟩
          | .ok s =>
            ⟨effs ++ [.opalCommand "SHOW_CORRECT" .noProps,
                .robotCommandAndWait "DO" s "ROBOT_NOT_SPEAKING" 10,
                .opalCommand "HIDE_CORRECT" .noProps], st, none⟩
      else if pyIn "YES" response_to_get then
        ⟨effs, { st with repeating := false, story := some false }, none⟩
      else ⟨effs, st, none⟩

/-- The argument of `ss_script_parser.get_session_script`: an `int`, or any
non-integer Python value. -/
inductive SessionArg where
  | int : Int → SessionArg
  | nonInt : SessionArg
deriving DecidableEq

/-- `ss_script_parser.get_session_script` (lines 39-74): TypeError on a
non-integer, ValueError below -1, the demo script for -1 and 0, a
session-numbered script for 1 and 2, and the generic script from 3 on. -/
def get_session_script : SessionArg → Except PyErr String
  | .nonInt => .error .typeError
  | .int n =>
    if n < -1 then .error .valueError
    else if n ≤ 0 then .ok "demo.txt"
    else if n < 3 then .ok ("session-" ++ toString n ++ ".txt")
    else .ok "session-general.txt"

/-- A handler state with nothing set: counters at zero, no flags, no pools,
no configuration (matching a fresh handler, where only `stories_told` and
`start_time` are initialized). -/
def stBase : HandlerState :=
  { stories_told := 0
    doing_story := false
    repeating := false
    story := none
    repetitions := 0
    max_repetitions := none
    max_stories := none
    max_incorrect_responses := none
    max_game_time := none
    elapsed := 0
    story_script := none
    correct_responses := none
    incorrect_responses := none
    yes_responses := none
    no_responses := none
    answer_feedback := none
    story_intros := none
    story_closings := none
    timeout_closings := none
    max_stories_reached := none }

/-- Default oracle: draw 0, no load failures, a trivial story. -/
def orcBase : Oracle :=
  { rand := 0
    storyLoadFails := false
    repeatLoadFails := false
    fileLines := none
    storyInfo := ⟨"story", [], false, 0⟩ }

/-- Claim C10: `get_session_script` raises TypeError exactly on non-integer
arguments, raises ValueError exactly on integers below -1, and otherwise
returns "demo.txt" for sessions -1 and 0, "session-n.txt" for sessions 1
and 2, and "session-general.txt" from session 3 on. -/
theorem C10_get_session_script_spec :
    get_session_script .nonInt = .error .typeError ∧
    (∀ n : Int, get_session_script (.int n) ≠ .error .typeError) ∧
    (∀ n : Int, get_session_script (.int n) = .error .valueError ↔ n < -1) ∧
    (∀ n : Int, -1 ≤ n → n ≤ 0 →
      get_session_script (.int n) = .ok "demo.txt") ∧
    (∀ n : Int, n = 1 ∨ n = 2 →
      get_session_script (.int n) = .ok ("session-" ++ toString n ++ ".txt")) ∧
    (∀ n : Int, 3 ≤ n →
      get_session_script (.int n) = .ok "session-general.txt") := by
  refine ⟨rfl, ?_, ?_, ?_, ?_, ?_⟩
  · intro n
    simp only [get_session_script]
    split_ifs <;> simp
  · intro n
    simp only [get_session_script]
    split_ifs with h1 h2 h3 <;> simp <;> omega
  · intro n h1 h2
    simp only [get_session_script]
    rw [if_neg (by omega), if_pos h2]
  · intro n h
    simp only [get_session_script]
    rw [if_neg (by omega), if_neg (by omega), if_pos (by omega)]
  · intro n h
    simp only [get_session_script]
    rw [if_neg (by omega), if_neg (by omega), if_neg (by omega)]

/-- Witness for C10: session 2 yields "session-2.txt". -/
theorem C10_get_session_script_spec_witness :
    get_session_script (.int 2) = .ok "session-2.txt" := by
  have h := C10_get_session_script_spec.2.2.2.2.1 2 (Or.inr rfl)
  exact h.trans rfl

/-- Claim C6: when the STORY context's source signals end of script,
`iterate_once` clears `doing_story`, increments `stories_told` by one,
leaves every other field of the handler state (repetition bookkeeping,
pools, budget) unchanged, emits nothing, raises nothing, and the next line
will be read from the repeat script when one is active, else from main. -/
theorem C6_story_exhausted_pops_and_counts (st : HandlerState) (orc : Oracle)
    (h : st.doing_story = true) :
    iterate_once st .endOfScript orc =
      ⟨[], { st with doing_story := false,
                     stories_told := st.stories_told + 1 }, none⟩ ∧
    activeSource (iterate_once st .endOfScript orc).state =
      (if st.repeating then Source.repeatScript else Source.main) := by
  constructor
  · simp [iterate_once, h]
  · simp [iterate_once, h, activeSource]

/-- Witness for C6 at a concrete state with an enclosing REPEAT context. -/
theorem C6_story_exhausted_pops_and_counts_witness :
    iterate_once { stBase with doing_story := true, repeating := true }
        .endOfScript orcBase =
      ⟨[], { stBase with doing_story := false, repeating := true,
                         stories_told := 1 }, none⟩ ∧
    activeSource (iterate_once
        { stBase with doing_story := true, repeating := true }
        .endOfScript orcBase).state = Source.repeatScript := by
  have h := C6_story_exhausted_pops_and_counts
    { stBase with doing_story := true, repeating := true } orcBase rfl
  exact ⟨h.1.trans (by decide), h.2.trans (by decide)⟩

/-- Claim C1 (refuted; the code is the slip): when the REPEAT context's
source signals end of script and no STORY context is active, the handler at
line 284 evaluates `"Finished repetition " + self.repetitions`, a str + int
concatenation that raises TypeError in Python 2, so `repetitions` is never
incremented, the REPEAT context is neither popped nor reopened, and the
exception escapes `iterate_once` (the state is returned unchanged). -/
theorem C1_repeat_exhausted_raises_typeerror (st : HandlerState) (orc : Oracle)
    (h1 : st.doing_story = false) (h2 : st.repeating = true) :
    iterate_once st .endOfScript orc = ⟨[], st, some .typeError⟩ := by
  simp [iterate_once, h1, h2]

/-- Witness for C1 at a concrete repeating state. -/
theorem C1_repeat_exhausted_raises_typeerror_witness :
    iterate_once { stBase with repeating := true } .endOfScript orcBase =
      ⟨[], { stBase with repeating := true }, some .typeError⟩ :=
  C1_repeat_exhausted_raises_typeerror
    { stBase with repeating := true } orcBase rfl rfl

/-- A reachable budget state: two stories told, MAX_STORIES set by a
`SET MAX_STORIES 2` line (which stores the raw string "2"), a REPEAT
context active, and `max_game_time` unset (the SET MAX_GAME_TIME branch
always raises, so it can never be assigned). -/
def st2 : HandlerState :=
  { stBase with stories_told := 2, max_stories := some (.str "2"),
                repeating := true,
                max_stories_reached := some ["We have to stop now."],
                no_responses := some ["Okay."] }

/-- Claim C2 (refuted; the code is the slip): in the state `st2`, where
numerically `stories_told = 2 >= 2 = max_stories`, processing
`OPAL LOAD_STORY` does not abort gracefully: the Python 2 comparison
`self.stories_told >= self.max_stories` compares an int with a str and is
always False, the time check then reads the never-assignable
`max_game_time` attribute and raises AttributeError, so no max-stories
response is emitted and the REPEAT context is not cancelled (`repeating`
stays true in the returned state). -/
theorem C2_budget_gate_raises_attributeerror :
    iterate_once st2 (.line "OPAL\tLOAD_STORY") orcBase =
      ⟨[.printLine "LINE: OPAL\tLOAD_STORY", .printLine "OPAL",
        .logMsg "Unexpected exception! Error:"], st2,
        some .attributeError⟩ ∧
    st2.stories_told = 2 ∧ st2.max_stories = some (.str "2") ∧
    st2.repeating = true ∧
    (iterate_once st2 (.line "OPAL\tLOAD_STORY") orcBase).effects.all
      (fun e => !e.isExternal) = true := by
  decide

/-- A state in which a YES_NO wait can run its loop: an integer attempt
bound (which a SET line can in fact never produce), both STORY and REPEAT
contexts active, and a no-response pool loaded. -/
def st3 : HandlerState :=
  { stBase with doing_story := true, repeating := true,
                max_incorrect_responses := some (.int 1),
                no_responses := some ["Okay."] }

/-- Claim C3 (refuted; the code is the slip): a `wait(YES_NO, t)` that
exhausts its attempts without a YES clears `repeating` but assigns the
stray attribute `self.story` instead of `self.doing_story` (line 409), so
the STORY context is NOT cancelled: `doing_story` is still true afterwards
and the next line is read from the story script, not from MAIN. -/
theorem C3_yes_no_exhaustion_leaves_story_active :
    wait_for_response st3 "YES_NO" (.int 5) (fun _ => "TIMEOUT")
        (fun _ => 0) =
      ⟨[.logMsg "Waiting for user response...", .robotCommand "DO" "Okay."],
        { st3 with repeating := false, story := some false }, none⟩ ∧
    (wait_for_response st3 "YES_NO" (.int 5) (fun _ => "TIMEOUT")
        (fun _ => 0)).state.doing_story = true ∧
    activeSource (wait_for_response st3 "YES_NO" (.int 5)
        (fun _ => "TIMEOUT") (fun _ => 0)).state = Source.story := by
  refine ⟨rfl, rfl, rfl⟩

/-- A state whose attempt bound is what `SET MAX_INCORRECT_RESPONSES 2`
actually stores: the string "2". -/
def st5 : HandlerState :=
  { stBase with max_incorrect_responses := some (.str "2"),
                correct_responses := some ["Great job!"],
                incorrect_responses := some ["Try again."],
                answer_feedback := some ["The answer was this one."] }

/-- Claim C5 (refuted; the code is the slip): `wait(CORRECT, t)` in the
reachable state `st5` raises TypeError at the loop header
(`range(0, self.max_incorrect_responses)` with a str bound), so zero
attempts run and no SHOW_CORRECT tablet command is ever emitted. -/
theorem C5_wait_correct_raises_typeerror :
    wait_for_response st5 "CORRECT" (.int 5) (fun _ => "TIMEOUT")
        (fun _ => 0) = ⟨[], st5, some .typeError⟩ := by
  rfl

/-- A state where MAX_STORIES was set by a `SET MAX_STORIES 2` line. -/
def st7 : HandlerState := { stBase with max_stories := some (.str "2") }

/-- Claim C7 (refuted; the code is the slip): processing
`REPEAT MAX_STORIES stories.txt` does push a repeating context, but the
`else:` clause of the try statement at lines 262-270 then overwrites
`max_repetitions` with `elements[1]` — the literal string "MAX_STORIES" —
rather than the max-stories budget; and for a literal countSource such as
"5" no branch assigns `max_repetitions` at all (it stays unset). -/
theorem C7_repeat_bound_not_as_specified :
    (handle_elements st7 ["REPEAT", "MAX_STORIES", "stories.txt"]
        orcBase).state.max_repetitions = some (.str "MAX_STORIES") ∧
    (handle_elements st7 ["REPEAT", "MAX_STORIES", "stories.txt"]
        orcBase).state.repeating = true ∧
    (handle_elements st7 ["REPEAT", "MAX_STORIES", "stories.txt"]
        orcBase).err = none ∧
    (handle_elements st7 ["REPEAT", "5", "stories.txt"]
        orcBase).state.max_repetitions = none ∧
    (handle_elements st7 ["REPEAT", "5", "stories.txt"]
        orcBase).state.repeating = true ∧
    (handle_elements st7 ["REPEAT", "5", "stories.txt"]
        orcBase).err = none := by
  decide

/-- Claim C9 (refuted; the code is the slip): an ADD line over a readable
three-line file does not load the pool: `read_list_from_file` opens the
undefined name `script` instead of its `filename` parameter, so the call
raises NameError (which `except IOError` does not catch), the state is
returned unchanged (the pool keeps its previous contents), and the
exception escapes `iterate_once`. -/
theorem C9_add_raises_nameerror :
    iterate_once stBase (.line "ADD\tCORRECT_RESPONSES\tresponses.txt")
        { orcBase with fileLines := some ["a", "b", "c"] } =
      ⟨[.printLine "LINE: ADD\tCORRECT_RESPONSES\tresponses.txt",
        .logMsg "Unexpected exception! Error:"], stBase,
        some .nameError⟩ := by
  decide

/-- `pySplitAux` never returns the empty list. -/
theorem pySplitAux_ne_nil (sep : Char) :
    ∀ (cs acc : List Char), pySplitAux sep cs acc ≠ [] := by
  intro cs
  induction cs with
  | nil => intro acc; simp [pySplitAux]
  | cons c cs ih =>
    intro acc
    unfold pySplitAux
    split
    · simp
    · exact ih (c :: acc)

/-- Python `split` always yields at least one field. -/
theorem pySplit_length_pos (s : String) (sep : Char) :
    0 < (pySplit s sep).length := by
  unfold pySplit
  rw [List.length_map]
  exact List.length_pos.mpr (pySplitAux_ne_nil sep s.toList [])

/-- An unrecognized field list falls through the whole dispatch chain with
no effect: the state is unchanged, nothing is raised, and nothing is
emitted (save the no-elements log on an empty field list, which
`str.split` can in fact never produce). -/
theorem handle_elements_of_unrecognized (st : HandlerState)
    (elements : List String) (orc : Oracle)
    (h : recognizedLine elements = false) :
    handle_elements st elements orc =
      if elements.length < 1 then
        ⟨[.logMsg "Line had no elements! Going to next line..."], st, none⟩
      else ⟨[], st, none⟩ := by
  unfold recognizedLine at h
  unfold handle_elements
  by_cases h0 : elements.length < 1
  · simp [h0]
  · rw [if_neg h0] at h ⊢
    rw [if_neg h0]
    by_cases h1 : (elements.length == 1) = true
    · rw [if_pos h1] at h ⊢
      rw [if_neg (by rw [h]; exact Bool.false_ne_true)]
    · rw [if_neg h1] at h ⊢
      rw [Bool.or_eq_false_iff] at h
      obtain ⟨h, hRep⟩ := h
      rw [Bool.or_eq_false_iff] at h
      obtain ⟨h, hW⟩ := h
      rw [Bool.or_eq_false_iff] at h
      obtain ⟨h, hS⟩ := h
      rw [Bool.or_eq_false_iff] at h
      obtain ⟨h, hA⟩ := h
      rw [Bool.or_eq_false_iff] at h
      obtain ⟨hR, hO⟩ := h
      rw [if_neg (by rw [hR]; exact Bool.false_ne_true),
          if_neg (by rw [hO]; exact Bool.false_ne_true),
          if_neg (by rw [hA]; exact Bool.false_ne_true),
          if_neg (by rw [hS]; exact Bool.false_ne_true),
          if_neg (by rw [hW]; exact Bool.false_ne_true),
          if_neg (by rw [hRep]; exact Bool.false_ne_true)]

/-- Claim C8: a script line whose fields the dispatcher does not recognize
(no opcode guard of the chain matches) is skipped without effect: the line
is printed for the log, no robot or tablet command is emitted, the handler
state is unchanged, and no exception is raised, so execution continues with
the next line.  (A zero-field list is impossible — Python `split` always
returns at least one field — but the dispatcher's guard for it likewise
only logs and returns.) -/
theorem C8_unrecognized_line_skipped (st : HandlerState) (l : String)
    (orc : Oracle) (h : recognizedLine (pySplit l '\t') = false) :
    iterate_once st (.line l) orc =
      ⟨[.printLine ("LINE: " ++ l)], st, none⟩ ∧
    (iterate_once st (.line l) orc).effects.all
      (fun e => !e.isExternal) = true := by
  have hlen : ¬ (pySplit l '\t').length < 1 :=
    Nat.not_lt.mpr (pySplit_length_pos l '\t')
  have hh := handle_elements_of_unrecognized st (pySplit l '\t') orc h
  rw [if_neg hlen] at hh
  have hmain : iterate_once st (.line l) orc =
      ⟨[.printLine ("LINE: " ++ l)], st, none⟩ := by
    simp [iterate_once, hh]
  refine ⟨hmain, ?_⟩
  rw [hmain]
  simp [Effect.isExternal]

/-- Witness for C8 on the concrete unknown-opcode line "FOO BAR". -/
theorem C8_unrecognized_line_skipped_witness :
    iterate_once stBase (.line "FOO\tBAR") orcBase =
      ⟨[.printLine "LINE: FOO\tBAR"], stBase, none⟩ ∧
    (iterate_once stBase (.line "FOO\tBAR") orcBase).effects.all
      (fun e => !e.isExternal) = true := by
  have h := C8_unrecognized_line_skipped stBase "FOO\tBAR" orcBase (by decide)
  exact ⟨h.1.trans (by decide), h.2⟩

/-- A state whose budget gate passes: `max_stories` holds what a SET line
stores (a str, which the Python 2 comparison sorts above every int) and
`max_game_time` is set with time remaining (although no SET line can in
fact ever assign it). -/
def st4 : HandlerState :=
  { stBase with max_stories := some (.str "2"), max_game_time := some 600 }

/-- An out-of-order story whose scene list repeats a name. -/
def info4 : StoryInfo := ⟨"story-x", ["a", "a"], false, 2⟩

/-- Claim C4 as stated is false at `st4`/`info4`: the budget gate passes
(no error), but the load-object command for the scene at 1-based position 2
carries slot 1, not 2, because the source computes the slot with
`scenes.index(scene)`, the index of the FIRST occurrence of the scene's
name. -/
theorem C4_counterexample :
    (load_next_story st4 0 info4).err = none ∧
    (load_next_story st4 0 info4).effects.length = 3 ∧
    (load_next_story st4 0 info4).effects.getD 2 (.logMsg "") =
      .opalCommand "LOAD_OBJECT"
        (.object ⟨"a", "PlayObject", 1, some 1, true, false⟩) ∧
    (1 : Nat) ≠ 2 := by
  decide

/-- Claim C4 (amended): when the budget gate passes, `load_next_story`
emits exactly one scene-setup command carrying the scene count, the
in-order flag and the answer count, followed by exactly one load-object
command per scene whose slot is one plus the index of the FIRST occurrence
of the scene's name in the scene list (hence the scene's 1-based position
whenever the scene names are distinct), whose `draggable` is the negation
of `inOrder`, and whose `correctSlot` is present exactly when `inOrder` is
false; the only state change is recording the story script name. -/
theorem C4_load_story_scene_emissions (st : HandlerState) (r : Nat)
    (info : StoryInfo) (ms : PyVal) (mgt : Int)
    (h1 : st.max_stories = some ms)
    (h2 : py2GeIntVal st.stories_told ms = false)
    (h3 : st.max_game_time = some mgt)
    (h4 : st.elapsed < mgt) :
    (load_next_story st r info).err = none ∧
    (load_next_story st r info).state =
      { st with story_script := some info.script_name } ∧
    (load_next_story st r info).effects =
      Effect.opalCommand "SETUP_STORY_SCENE"
          (.setup ⟨info.scenes.length, info.in_order, info.num_answers⟩)
        :: info.scenes.map (fun s => Effect.opalCommand "LOAD_OBJECT"
            (.object (sceneObject info.scenes info.in_order s))) ∧
    (∀ s, (sceneObject info.scenes info.in_order s).draggable =
      !info.in_order) ∧
    (∀ s, (sceneObject info.scenes info.in_order s).correctSlot.isSome =
      !info.in_order) ∧
    (∀ s, (sceneObject info.scenes info.in_order s).slot =
      info.scenes.indexOf s + 1) ∧
    (info.scenes.Nodup → ∀ i (h : i < info.scenes.length),
      (sceneObject info.scenes info.in_order info.scenes[i]).slot = i + 1) := by
  have hload : load_next_story st r info = successBranch st info := by
    simp only [load_next_story, h1, h2, h3, Bool.false_eq_true, if_false]
    rw [if_neg (Int.not_le.mpr h4)]
  refine ⟨by rw [hload]; rfl, by rw [hload]; rfl, by rw [hload]; rfl,
    ?_, ?_, ?_, ?_⟩
  · intro s
    cases hio : info.in_order <;> simp [sceneObject, hio]
  · intro s
    cases hio : info.in_order <;> simp [sceneObject, hio]
  · intro s
    rfl
  · intro hnd i h
    simp [sceneObject, List.indexOf_getElem hnd i h]

/-- Witness for C4 at a concrete passing state and a two-scene story. -/
theorem C4_load_story_scene_emissions_witness :
    (load_next_story st4 0 ⟨"story-x", ["a", "b"], false, 2⟩).err = none ∧
    (load_next_story st4 0 ⟨"story-x", ["a", "b"], false, 2⟩).effects.length
      = 3 := by
  have h := C4_load_story_scene_emissions st4 0
    ⟨"story-x", ["a", "b"], false, 2⟩ (.str "2") 600 rfl (by decide) rfl
    (by decide)
  refine ⟨h.1, ?_⟩
  rw [h.2.2.1]
  decide

end SSS
